import Mathlib

/-!
Verification of the data-processing pipeline and notebook structure of
`MTL_Tutorial.ipynb` (Incorporating Indirect Means of Supervision).

The notebook's data pipeline (setup cell and split cell) is embedded as pure
functions on lists of rows; the notebook's statement-level structure (which
cells exist, what each statement assigns, reads, and calls) is embedded as a
list of operations with a small-step environment semantics.
-/

/-- The three sentiment annotations of the Financial Phrase Bank dataset. -/
inductive Polarity
  | positive
  | negative
  | neutral
deriving DecidableEq

/-- A raw line of the dataset file: a sentence and an annotation, either of
which may be missing (pandas NaN after the DataFrame conversion). -/
structure RawLine where
  sentence : Option String
  polarity : Option Polarity
deriving DecidableEq

/-- Modelled from the spec: the label encoding used by the notebook.
The function `read_finphrase` lives in `mtl_helpers.py`, which is not part of
the repository snapshot; per the spec ("classification of text into
positive/negative/neutral polarity") and the notebook's own comment cell
("1 is positive, 0 is negative, 2 is neutral"), each annotation is encoded as
an integer label. -/
def encodeLabel : Polarity → Int
  | .positive => 1
  | .negative => 0
  | .neutral => 2

/-- Modelled from the spec: `read_finphrase` (from the absent `mtl_helpers.py`)
reads the dataset file and returns (sentence, label) rows, with the label
obtained from the annotation by `encodeLabel`; missing fields propagate as
missing (NaN). -/
def read_finphrase (contents : List RawLine) : List (Option String × Option Int) :=
  contents.map (fun line => (line.sentence, line.polarity.map encodeLabel))

/-- `data.dropna()`: keep exactly the rows in which both fields are present. -/
def dropna (rows : List (Option String × Option Int)) : List (String × Int) :=
  rows.filterMap (fun r =>
    match r with
    | (some s, some l) => some (s, l)
    | _ => none)

/-- One step of a linear congruential generator, used to derive the
pseudo-random sort keys of the seeded shuffle. -/
def lcgStep (s : Nat) : Nat := (1664525 * s + 1013904223) % 4294967296

/-- The pseudo-random key assigned to index `i` by the generator seeded with
`seed`. -/
def lcgKey (seed : Nat) : Nat → Nat
  | 0 => lcgStep seed
  | i + 1 => lcgStep (lcgKey seed i)

/-- A seeded full shuffle: pair every element with a pseudo-random key derived
from its index and the seed, and sort by key.  This models
`data.sample(frac=1, random_state=seed)`: a deterministic permutation of the
rows that depends only on the seed. -/
def shuffleSeed (seed : Nat) (l : List α) : List α :=
  (List.insertionSort (fun a b : Nat × α => a.1 ≤ b.1)
    (l.enum.map (fun p => (lcgKey seed p.1, p.2)))).map Prod.snd

/-- `data.sample(frac=1, random_state=rs).reset_index(drop=True)`: when a
`random_state` is given it seeds the shuffle; otherwise the seed is drawn from
the ambient random `world`.  On the list model `reset_index(drop=True)` is the
identity. -/
def sample_frac1 (random_state : Option Nat) (world : Nat) (l : List α) : List α :=
  shuffleSeed (random_state.getD world) l

/-- The `random_state = 42` argument of the setup cell's `sample` call. -/
def RANDOM_STATE : Option Nat := some 42

/-- The setup cell: `data = read_finphrase(...)`, DataFrame conversion (the
identity on the list model), `dropna`, and the seeded shuffle with reset
index. -/
def setupData (world : Nat) (contents : List RawLine) : List (String × Int) :=
  sample_frac1 RANDOM_STATE world (dropna (read_finphrase contents))

/-- `data = data[data.label != 2]`: the binary reduction that drops the
neutral class. -/
def binaryFiltered (world : Nat) (contents : List RawLine) : List (String × Int) :=
  (setupData world contents).filter (fun r => r.2 ≠ 2)

/-- `train_split_idx = 1300`. -/
def train_split_idx : Nat := 1300

/-- `x_train = data[0:train_split_idx]['sentence']`. -/
def x_train (world : Nat) (contents : List RawLine) : List String :=
  ((binaryFiltered world contents).take train_split_idx).map Prod.fst

/-- `y_train = data[0:train_split_idx]['label']`. -/
def y_train (world : Nat) (contents : List RawLine) : List Int :=
  ((binaryFiltered world contents).take train_split_idx).map Prod.snd

/-- `x_val = data[train_split_idx:]['sentence']`. -/
def x_val (world : Nat) (contents : List RawLine) : List String :=
  ((binaryFiltered world contents).drop train_split_idx).map Prod.fst

/-- `y_val = data[train_split_idx:]['label']`. -/
def y_val (world : Nat) (contents : List RawLine) : List Int :=
  ((binaryFiltered world contents).drop train_split_idx).map Prod.snd

theorem shuffleSeed_perm (seed : Nat) (l : List α) : (shuffleSeed seed l).Perm l := by
  unfold shuffleSeed
  have h1 := List.perm_insertionSort (fun a b : Nat × α => a.1 ≤ b.1)
    (l.enum.map (fun p => (lcgKey seed p.1, p.2)))
  have h2 := h1.map Prod.snd
  have h3 : (l.enum.map (fun p => (lcgKey seed p.1, p.2))).map Prod.snd = l := by
    rw [List.map_map]
    have : (Prod.snd ∘ fun p : Nat × α => (lcgKey seed p.1, p.2)) = Prod.snd := by
      funext p; rfl
    rw [this, List.enum_map_snd]
  rw [h3] at h2
  exact h2

theorem mem_shuffleSeed {a : α} {seed : Nat} {l : List α}
    (h : a ∈ shuffleSeed seed l) : a ∈ l :=
  (shuffleSeed_perm seed l).mem_iff.mp h

/-!
The tf-idf experiment (Signal 1, MLP cell): `TfidfVectorizer` with
`ngram_range=(1,2)`, `analyzer='word'`, the stop-word list
`['a','an','the','i']`, `min_df=1`, `max_df=0.33`; then
`SelectKBest(f_classif, k=min(TOP_K, x_train_tf.shape[1]))`.
Matrices carry their column count explicitly (the `shape[1]` of the library's
sparse matrices), with rows as lists of rationals.
-/

/-- A term of the vectorizer's vocabulary, as a list of characters. -/
abbrev Term := List Char

/-- Split a character stream into maximal runs of alphanumeric characters
(the word tokens of the vectorizer's word analyzer). -/
def splitRuns : List Char → Term → List Term
  | [], acc => if acc.isEmpty then [] else [acc.reverse]
  | c :: rest, acc =>
    if c.isAlphanum then splitRuns rest (c :: acc)
    else if acc.isEmpty then splitRuns rest [] else acc.reverse :: splitRuns rest []

/-- Word tokens of a document: lowercased alphanumeric runs of at least two
characters (the vectorizer's default token pattern keeps only tokens of two
or more word characters). -/
def tokenize (doc : String) : List Term :=
  ((splitRuns doc.data []).map (fun t => t.map Char.toLower)).filter (fun t => 2 ≤ t.length)

/-- The `stop_words` argument of the tf-idf cell. -/
def STOP_WORDS : List Term := [['a'], ['a', 'n'], ['t', 'h', 'e'], ['i']]

/-- Adjacent-pair bigrams, joined with a space (the `(1, 2)` ngram range). -/
def bigrams : List Term → List Term
  | a :: b :: rest => (a ++ ' ' :: b) :: bigrams (b :: rest)
  | _ => []

/-- All terms extracted from one document: its stop-word-filtered tokens
together with their bigrams. -/
def docTerms (doc : String) : List Term :=
  let toks := (tokenize doc).filter (fun t => t ∉ STOP_WORDS)
  toks ++ bigrams toks

/-- Document frequency of a term over a corpus. -/
def docFreq (corpus : List String) (t : Term) : Nat :=
  (corpus.filter (fun d => t ∈ docTerms d)).length

/-- `tfvect.fit(...)`: the fitted vocabulary is every distinct term of the
corpus whose document frequency does not exceed the `max_df = 0.33`
proportion (`min_df = 1` keeps everything else). -/
def fitVocab (corpus : List String) : List Term :=
  ((corpus.flatMap docTerms).dedup).filter
    (fun t => 100 * docFreq corpus t ≤ 33 * corpus.length)

/-- Number of occurrences of a term in a document. -/
def termCount (t : Term) (doc : String) : Nat :=
  ((docTerms doc).filter (fun u => u = t)).length

/-- One transformed row.  The entry for each vocabulary term is its raw count
in the document; the library additionally applies a real-valued logarithmic
idf scaling, which is not representable over the rationals and is irrelevant
to the matrix-shape properties verified here (scaling never changes which
entries exist). -/
def tfidfRow (vocab : List Term) (doc : String) : List ℚ :=
  vocab.map (fun t => (termCount t doc : ℚ))

/-- A feature matrix: its column count (the sparse matrix's `shape[1]`) and
its rows. -/
structure Mat where
  ncols : Nat
  rows : List (List ℚ)
deriving DecidableEq

/-- `tfvect.transform(corpus)`: one row per document, one column per fitted
vocabulary term. -/
def transformAll (vocab : List Term) (corpus : List String) : Mat :=
  ⟨vocab.length, corpus.map (tfidfRow vocab)⟩

/-- Column `j` of a matrix's rows. -/
def colAt (rows : List (List ℚ)) (j : Nat) : List ℚ :=
  rows.map (fun row => row.getD j 0)

/-- Mean of a list of rationals (0 for the empty list, since division by zero
is 0 over ℚ). -/
def meanQ (l : List ℚ) : ℚ := l.sum / l.length

/-- The values of `xs` whose paired label equals `g`. -/
def groupVals (xs : List ℚ) (ys : List Int) (g : Int) : List ℚ :=
  ((xs.zip ys).filter (fun p => p.2 = g)).map Prod.fst

/-- The ANOVA F-statistic of one feature column against the labels: the
between-group mean square over the within-group mean square. -/
def fStat (xs : List ℚ) (ys : List Int) : ℚ :=
  let groups := ys.dedup
  let k : ℚ := groups.length
  let n : ℚ := xs.length
  let gm := meanQ xs
  let ssb := (groups.map (fun g =>
    let v := groupVals xs ys g
    (v.length : ℚ) * (meanQ v - gm) ^ 2)).sum
  let ssw := (groups.map (fun g =>
    let v := groupVals xs ys g
    (v.map (fun x => (x - meanQ v) ^ 2)).sum)).sum
  (ssb / (k - 1)) / (ssw / (n - k))

/-- `f_classif(X, y)`: one score per column of `X`. -/
def f_classif (X : Mat) (y : List Int) : List ℚ :=
  (List.range X.ncols).map (fun j => fStat (colAt X.rows j) y)

/-- `SelectKBest.fit`: the indices of the `k` highest-scoring features
(indices sorted by decreasing score, the first `k` kept). -/
def selectTopK (scores : List ℚ) (k : Nat) : List Nat :=
  ((List.insertionSort (fun a b : Nat × ℚ => b.2 ≤ a.2) scores.enum).map Prod.fst).take k

/-- `selector.transform`: keep exactly the selected columns of every row. -/
def selTransform (idxs : List Nat) (X : Mat) : Mat :=
  ⟨idxs.length, X.rows.map (fun row => idxs.map (fun j => row.getD j 0))⟩

/-- `TOP_K = 20000`. -/
def TOP_K : Nat := 20000

/-- `x_train_tf = tfvect.fit_transform(x_train)` (before selection). -/
def x_train_tf_raw (world : Nat) (contents : List RawLine) : Mat :=
  transformAll (fitVocab (x_train world contents)) (x_train world contents)

/-- `x_val_tf = tfvect.transform(x_val)` (before selection). -/
def x_val_tf_raw (world : Nat) (contents : List RawLine) : Mat :=
  transformAll (fitVocab (x_train world contents)) (x_val world contents)

/-- `k = min(TOP_K, x_train_tf.shape[1])`. -/
def selector_k (world : Nat) (contents : List RawLine) : Nat :=
  min TOP_K (x_train_tf_raw world contents).ncols

/-- `selector.fit(x_train_tf, y_train)`: the selected feature indices. -/
def selector_idx (world : Nat) (contents : List RawLine) : List Nat :=
  selectTopK (f_classif (x_train_tf_raw world contents) (y_train world contents))
    (selector_k world contents)

/-- `x_train_tf = selector.transform(x_train_tf).toarray()`. -/
def x_train_tf (world : Nat) (contents : List RawLine) : Mat :=
  selTransform (selector_idx world contents) (x_train_tf_raw world contents)

/-- `x_val_tf = selector.transform(x_val_tf).toarray()`. -/
def x_val_tf (world : Nat) (contents : List RawLine) : Mat :=
  selTransform (selector_idx world contents) (x_val_tf_raw world contents)

/-- `inputs = keras.Input(shape=(x_val_tf.shape[1],))`: the MLP's declared
input dimension. -/
def mlp_input_dim (world : Nat) (contents : List RawLine) : Nat :=
  (x_val_tf world contents).ncols

/-!
The network architectures declared in the notebook, at the layer level.
-/

/-- Activation functions appearing in the notebook's layer declarations. -/
inductive Activation
  | relu
  | softmax
deriving DecidableEq

/-- A Keras layer as declared in the notebook. -/
inductive Layer
  | dense (units : Nat) (activation : Activation)
  | dropoutL (rate : ℚ)
  | embeddingL (outputDim : Nat) (trainable : Bool)
  | bidirectionalLSTM (units : Nat) (returnSequences : Bool) (recurrentDropout : ℚ)
deriving DecidableEq

/-- The MLP's layer stack (tf-idf cell): Dense(64, relu), Dropout(0.4),
Dense(64, relu), Dropout(0.4), Dense(2, softmax). -/
def mlpLayers : List Layer :=
  [.dense 64 .relu, .dropoutL 0.4, .dense 64 .relu, .dropoutL 0.4, .dense 2 .softmax]

/-- The BiLSTM's layer stack (GloVe cell): Embedding(100, frozen),
two Bidirectional LSTM(50) layers, Dropout(0.2), Dense(2, softmax). -/
def bilstmLayers : List Layer :=
  [.embeddingL 100 false,
   .bidirectionalLSTM 50 true 0.2,
   .bidirectionalLSTM 50 false 0.2,
   .dropoutL 0.2,
   .dense 2 .softmax]

/-!
Statement-level embedding of the notebook: every variable of the notebook, a
tag for the right-hand side of every statement, and an operation type with a
small-step environment semantics.  The transcription below follows the code
cells of `MTL_Tutorial.ipynb` statement by statement.
-/

/-- The variables assigned by the notebook's code cells. -/
inductive VarName
  | data | train_split_idx | x_train | y_train | x_val | y_val
  | TOP_K | tfidf_args | tfvect | x_train_tf | x_val_tf | selector
  | inputs | x | outputs | model | optimizer
  | vectorizer | embeddings
  | x_train_vectorized | x_val_vectorized | y_train_vectorized | y_val_vectorized
  | embedding_layer | int_sequences_input | embedded_sequences | preds
  | BATCH_SIZE | bert_tokenizer | train_bert | val_bert | loss | metric
deriving DecidableEq

/-- Tags identifying the function or expression form on the right-hand side
of each notebook statement. -/
inductive Fn
  | read_finphrase | pd_dataframe | dropna_call | sample_reset | sample_display
  | filter_label_ne2 | natLit (n : Nat)
  | slice_train_sentence | slice_train_label | slice_val_sentence | slice_val_label
  | dict_lit | tfidf_vectorizer | fit_transform | transform_apply
  | select_k_best | selector_fit | selector_transform
  | keras_input | dense_relu | dropout_layer | dense_softmax | keras_model
  | adam | compile_model | fit
  | create_vectorizer_and_embeddings_fst | create_vectorizer_and_embeddings_snd
  | vectorize_apply | np_array | embedding_ctor | layer_apply | bilstm_layer
  | bert_tokenizer_ctor | convert_data_batch
  | scc_loss | sparse_cat_accuracy | from_pretrained
  | pd_set_option_call
deriving DecidableEq

/-- Values of the environment semantics: a variable still at its initial
(undefined) value, a function tag, a string literal, or an application. -/
inductive Val
  | undef (v : VarName)
  | fnTag (f : Fn)
  | strTag (s : String)
  | app (f a : Val)
deriving DecidableEq

/-- Build the value of a right-hand side: the tag applied to the current
values of the variables it reads. -/
def mkVal (f : Fn) (args : List Val) : Val :=
  args.foldl .app (.fnTag f)

/-- One notebook statement. -/
inductive Op
  | importStmt (lib : String)
  | setOptionStmt
  | assign (dst : VarName) (f : Fn) (reads : List VarName)
  | exprStmt (f : Fn) (reads : List VarName)
  | methodCall (recv : VarName) (f : Fn) (reads : List VarName)
  | fitCall (modelVar : VarName) (reads : List VarName) (epochs : Nat)
      (validationData : List VarName)
  | fromPretrained (dst : VarName) (checkpoint : String)
  | evalCall (modelVar : VarName) (reads : List VarName)
  | defStmt (isClass : Bool)
  | forLoopStmt
  | exceptHandler
deriving DecidableEq

/-- The variables an operation writes. -/
def Op.writes : Op → List VarName
  | .assign dst _ _ => [dst]
  | .methodCall recv _ _ => [recv]
  | .fitCall m _ _ _ => [m]
  | .fromPretrained dst _ => [dst]
  | _ => []

/-- An environment: the current value of every notebook variable. -/
def Env := VarName → Val

/-- The initial environment: every variable undefined. -/
def initEnv : Env := fun v => .undef v

/-- Update one variable of an environment. -/
def Env.update (env : Env) (dst : VarName) (val : Val) : Env :=
  fun v => if v = dst then val else env v

/-- One step of the environment semantics. -/
def stepOp (env : Env) : Op → Env
  | .assign dst f reads => env.update dst (mkVal f (reads.map env))
  | .methodCall recv f reads => env.update recv (mkVal f (env recv :: reads.map env))
  | .fitCall m reads _ valData =>
      env.update m (mkVal .fit (env m :: (reads ++ valData).map env))
  | .fromPretrained dst ckpt => env.update dst (.app (.fnTag .from_pretrained) (.strTag ckpt))
  | _ => env

/-- Run a list of operations from an environment. -/
def runOps (ops : List Op) (env : Env) : Env :=
  ops.foldl stepOp env

/-- The setup cell (cell 4): imports, the display option, and the four
assignments building `data`. -/
def cell4 : List Op :=
  [.importStmt "numpy",
   .importStmt "pandas",
   .importStmt "tensorflow",
   .importStmt "tensorflow.keras",
   .importStmt "tensorflow.keras.layers",
   .importStmt "sklearn.feature_extraction.text.TfidfVectorizer",
   .importStmt "sklearn.feature_selection.SelectKBest",
   .importStmt "sklearn.feature_selection.f_classif",
   .importStmt "transformers.BertTokenizer",
   .importStmt "transformers.TFBertForSequenceClassification",
   .importStmt "mtl_helpers",
   .setOptionStmt,
   .assign .data .read_finphrase [],
   .assign .data .pd_dataframe [.data],
   .assign .data .dropna_call [.data],
   .assign .data .sample_reset [.data]]

/-- The label-encoding display cell (cell 5): `data.sample(6, random_state=32)`,
an expression with no binding. -/
def cell5 : List Op :=
  [.exprStmt .sample_display [.data]]

/-- The process-and-split cell (cell 6): the binary filter and the four
slice assignments at `train_split_idx = 1300`. -/
def cell6 : List Op :=
  [.assign .data .filter_label_ne2 [.data],
   .assign .train_split_idx (.natLit 1300) [],
   .assign .x_train .slice_train_sentence [.data, .train_split_idx],
   .assign .y_train .slice_train_label [.data, .train_split_idx],
   .assign .x_val .slice_val_sentence [.data, .train_split_idx],
   .assign .y_val .slice_val_label [.data, .train_split_idx]]

/-- The tf-idf MLP cell (cell 8).  The statement
`x_train_tf = tfvect.fit_transform(x_train)` both refits the vectorizer and
binds the matrix, so it is transcribed as the method call followed by the
assignment. -/
def cell8 : List Op :=
  [.assign .TOP_K (.natLit 20000) [],
   .assign .tfidf_args .dict_lit [],
   .assign .tfvect .tfidf_vectorizer [.tfidf_args],
   .methodCall .tfvect .fit_transform [.x_train],
   .assign .x_train_tf .transform_apply [.tfvect, .x_train],
   .assign .x_val_tf .transform_apply [.tfvect, .x_val],
   .assign .selector .select_k_best [.TOP_K, .x_train_tf],
   .methodCall .selector .selector_fit [.x_train_tf, .y_train],
   .assign .x_train_tf .selector_transform [.selector, .x_train_tf],
   .assign .x_val_tf .selector_transform [.selector, .x_val_tf],
   .assign .inputs .keras_input [.x_val_tf],
   .assign .x .dense_relu [.inputs],
   .assign .x .dropout_layer [.x],
   .assign .x .dense_relu [.x],
   .assign .x .dropout_layer [.x],
   .assign .outputs .dense_softmax [.x],
   .assign .model .keras_model [.inputs, .outputs],
   .assign .optimizer .adam [],
   .methodCall .model .compile_model [.optimizer],
   .fitCall .model [.x_train_tf, .y_train] 10 [.x_val_tf, .y_val]]

/-- The GloVe BiLSTM cell (cell 9). -/
def cell9 : List Op :=
  [.assign .vectorizer .create_vectorizer_and_embeddings_fst [.x_train],
   .assign .embeddings .create_vectorizer_and_embeddings_snd [.x_train],
   .assign .x_train_vectorized .vectorize_apply [.vectorizer, .x_train],
   .assign .x_val_vectorized .vectorize_apply [.vectorizer, .x_val],
   .assign .y_train_vectorized .np_array [.y_train],
   .assign .y_val_vectorized .np_array [.y_val],
   .assign .embedding_layer .embedding_ctor [.vectorizer, .embeddings],
   .assign .int_sequences_input .keras_input [],
   .assign .embedded_sequences .layer_apply [.embedding_layer, .int_sequences_input],
   .assign .x .bilstm_layer [.embedded_sequences],
   .assign .x .bilstm_layer [.x],
   .assign .x .dropout_layer [.x],
   .assign .preds .dense_softmax [.x],
   .assign .model .keras_model [.int_sequences_input, .preds],
   .assign .optimizer .adam [],
   .methodCall .model .compile_model [.optimizer],
   .fitCall .model [.x_train_vectorized, .y_train_vectorized] 15
     [.x_val_vectorized, .y_val_vectorized]]

/-- The BERT tokenization cell (cell 11). -/
def cell11 : List Op :=
  [.assign .BATCH_SIZE (.natLit 16) [],
   .fromPretrained .bert_tokenizer "bert-base-cased",
   .assign .train_bert .convert_data_batch [.bert_tokenizer, .x_train, .y_train, .BATCH_SIZE],
   .assign .val_bert .convert_data_batch [.bert_tokenizer, .x_val, .y_val, .BATCH_SIZE]]

/-- The BERT model cell (cell 12). -/
def cell12 : List Op :=
  [.fromPretrained .model "bert-base-cased",
   .assign .loss .scc_loss [],
   .assign .metric .sparse_cat_accuracy [],
   .assign .optimizer .adam [],
   .methodCall .model .compile_model [.optimizer, .loss, .metric],
   .fitCall .model [.train_bert, .BATCH_SIZE] 2 [.val_bert]]

/-- The code cell under the Signal 3 (external features) section: empty. -/
def cell14 : List Op := []

/-- The code cell under the Signal 4 (multitask learning) section: empty. -/
def cell16 : List Op := []

/-- The code cell under the Signal 5 (dataset slicing) section: empty. -/
def cell18 : List Op := []

/-- The first code cell under the Signal 6 (data augmentation) section: empty. -/
def cell21 : List Op := []

/-- The second code cell under the Signal 6 (data augmentation) section: empty. -/
def cell23 : List Op := []

/-- The code cell under the Signal 7 (ensembling) section: empty. -/
def cell25 : List Op := []

/-- The trailing code cell of the notebook: empty. -/
def cell27 : List Op := []

/-- The operations up to and including the train/validation split. -/
def setupOps : List Op := cell4 ++ cell5 ++ cell6

/-- The operations of every cell after the split cell. -/
def experimentOps : List Op :=
  cell8 ++ cell9 ++ cell11 ++ cell12 ++ cell14 ++ cell16 ++ cell18 ++
  cell21 ++ cell23 ++ cell25 ++ cell27

/-- Every operation of the notebook, in execution order. -/
def notebookOps : List Op := setupOps ++ experimentOps

/-- Is this operation a `.fit` call? -/
def Op.isFitCall : Op → Bool
  | .fitCall _ _ _ _ => true
  | _ => false

/-- Is this operation a metric-evaluation call (`model.evaluate`)?  The
notebook never contains one; accuracies come only from `.fit`. -/
def Op.isEvalCall : Op → Bool
  | .evalCall _ _ => true
  | _ => false

/-- Does this operation report an accuracy metric?  In the embedding the only
operations that can print a metric are `.fit` (whose compiled metrics include
accuracy) and `model.evaluate`. -/
def Op.reportsMetric (op : Op) : Bool := op.isFitCall || op.isEvalCall

/-- Is this operation a `def` or `class` statement? -/
def Op.isDefStmt : Op → Bool
  | .defStmt _ => true
  | _ => false

/-- Is this operation a top-level loop statement? -/
def Op.isLoopStmt : Op → Bool
  | .forLoopStmt => true
  | _ => false

/-- Is this operation an exception handler (a try/except)? -/
def Op.isHandler : Op → Bool
  | .exceptHandler => true
  | _ => false

/-- Is this operation a `from_pretrained` initialization of `dst`? -/
def Op.isFromPretrainedTo (dst : VarName) : Op → Bool
  | .fromPretrained d _ => d = dst
  | _ => false

/-- Does this operation write the variable `v`? -/
def Op.writesVar (op : Op) (v : VarName) : Bool := op.writes.contains v

/-- Error-aware execution: a raised error flows through every subsequent
operation unchanged, except that an exception handler catches it and resumes
with a fresh environment. -/
def stepErr (c : Except String Env) (op : Op) : Except String Env :=
  match c with
  | .error e =>
    match op with
    | .exceptHandler => .ok initEnv
    | _ => .error e
  | .ok env => .ok (stepOp env op)

/-- Run a list of operations in the error-aware semantics. -/
def runErr (ops : List Op) (c : Except String Env) : Except String Env :=
  ops.foldl stepErr c

/-- Does the value `t` occur as a subterm of the second value? -/
def Val.occursIn (t : Val) : Val → Bool
  | .undef v => t == .undef v
  | .fnTag f => t == .fnTag f
  | .strTag s => t == .strTag s
  | .app f a => t == .app f a || Val.occursIn t f || Val.occursIn t a

/-- The environment right after the split cell. -/
def envAfterSplit : Env := runOps setupOps initEnv

/-- The environment after every cell of the notebook has run. -/
def envFinal : Env := runOps notebookOps initEnv

/-- The eight supervision signals named by the spec's overview sentence. -/
inductive Signal
  | tfidfMLP
  | gloveBiLSTM
  | bertFineTuning
  | externalFeatures
  | multitaskLearning
  | datasetSlicing
  | dataAugmentation
  | ensembling
deriving DecidableEq

/-- The eight signals, in the order the spec lists them. -/
def allSignals : List Signal :=
  [.tfidfMLP, .gloveBiLSTM, .bertFineTuning, .externalFeatures,
   .multitaskLearning, .datasetSlicing, .dataAugmentation, .ensembling]

/-- The code-cell operations of the notebook section demonstrating each
signal.  The tf-idf MLP and the GloVe BiLSTM are the two experiments of the
Signal 1 section; BERT fine-tuning is Signal 2 (its tokenization and model
cells); Signals 3 through 7 have only markdown and empty code cells. -/
def signalOps : Signal → List Op
  | .tfidfMLP => cell8
  | .gloveBiLSTM => cell9
  | .bertFineTuning => cell11 ++ cell12
  | .externalFeatures => cell14
  | .multitaskLearning => cell16
  | .datasetSlicing => cell18
  | .dataAugmentation => cell21 ++ cell23
  | .ensembling => cell25

/-- Does this operation load or encode the task data (read any of the split
variables)? -/
def Op.loadsOrEncodesData : Op → Bool
  | .assign _ _ reads =>
      reads.contains .x_train || reads.contains .y_train ||
      reads.contains .x_val || reads.contains .y_val
  | .methodCall _ _ reads =>
      reads.contains .x_train || reads.contains .y_train ||
      reads.contains .x_val || reads.contains .y_val
  | _ => false

/-- Does this operation configure a model (construct a Keras model or
initialize one from a pretrained checkpoint)? -/
def Op.configuresModel : Op → Bool
  | .assign _ .keras_model _ => true
  | .fromPretrained .model _ => true
  | _ => false

/-- Does this operation report a validation accuracy (a `.fit` call with
validation data, whose compiled metrics include accuracy)? -/
def Op.reportsValAccuracy : Op → Bool
  | .fitCall _ _ _ valData => !valData.isEmpty
  | _ => false

/-- Does the section demonstrating a signal contain an experiment: an
operation loading or encoding the data, one configuring a model, and one
reporting validation accuracy? -/
def signalHasExperimentCell (s : Signal) : Bool :=
  (signalOps s).any Op.loadsOrEncodesData &&
  (signalOps s).any Op.configuresModel &&
  (signalOps s).any Op.reportsValAccuracy

/-!
Supporting lemmas about the data pipeline.
-/

theorem mem_dropna {r : String × Int} {rows : List (Option String × Option Int)}
    (h : r ∈ dropna rows) : (some r.1, some r.2) ∈ rows := by
  unfold dropna at h
  rw [List.mem_filterMap] at h
  obtain ⟨a, ha, hfa⟩ := h
  obtain ⟨as, al⟩ := a
  cases as <;> cases al <;> simp_all
  rw [← hfa]
  exact ha

theorem mem_read_finphrase {c : List RawLine} {p : Option String × Option Int}
    (h : p ∈ read_finphrase c) :
    ∃ line ∈ c, p = (line.sentence, line.polarity.map encodeLabel) := by
  unfold read_finphrase at h
  rw [List.mem_map] at h
  obtain ⟨line, hl, he⟩ := h
  exact ⟨line, hl, he.symm⟩

theorem setupData_label {w : Nat} {c : List RawLine} {r : String × Int}
    (h : r ∈ setupData w c) : r.2 = 0 ∨ r.2 = 1 ∨ r.2 = 2 := by
  unfold setupData sample_frac1 at h
  have h1 : r ∈ dropna (read_finphrase c) := mem_shuffleSeed h
  obtain ⟨line, _, he⟩ := mem_read_finphrase (mem_dropna h1)
  have hl : some r.2 = line.polarity.map encodeLabel := congrArg Prod.snd he
  cases hp : line.polarity with
  | none => rw [hp] at hl; simp at hl
  | some pol =>
      rw [hp] at hl
      simp at hl
      rw [hl]
      cases pol <;> simp [encodeLabel]

theorem binaryFiltered_label {w : Nat} {c : List RawLine} {r : String × Int}
    (h : r ∈ binaryFiltered w c) : r.2 = 0 ∨ r.2 = 1 := by
  unfold binaryFiltered at h
  rw [List.mem_filter] at h
  obtain ⟨hmem, hne⟩ := h
  have hne2 : r.2 ≠ 2 := by simpa using hne
  rcases setupData_label hmem with h0 | h1 | h2
  · exact Or.inl h0
  · exact Or.inr h1
  · exact absurd h2 hne2

theorem y_train_label {w : Nat} {c : List RawLine} {l : Int}
    (h : l ∈ y_train w c) : l = 0 ∨ l = 1 := by
  unfold y_train at h
  rw [List.mem_map] at h
  obtain ⟨r, hr, he⟩ := h
  rw [← he]
  exact binaryFiltered_label (List.mem_of_mem_take hr)

theorem y_val_label {w : Nat} {c : List RawLine} {l : Int}
    (h : l ∈ y_val w c) : l = 0 ∨ l = 1 := by
  unfold y_val at h
  rw [List.mem_map] at h
  obtain ⟨r, hr, he⟩ := h
  rw [← he]
  exact binaryFiltered_label (List.mem_of_mem_drop hr)

/-!
Supporting lemmas about feature selection shapes.
-/

theorem length_f_classif (X : Mat) (y : List Int) : (f_classif X y).length = X.ncols := by
  simp [f_classif]

theorem length_selectTopK (scores : List ℚ) (k : Nat) :
    (selectTopK scores k).length = min k scores.length := by
  simp [selectTopK, List.length_take, List.length_map, List.length_insertionSort,
    List.enum_length]

theorem selector_idx_length (w : Nat) (c : List RawLine) :
    (selector_idx w c).length = selector_k w c := by
  rw [selector_idx, length_selectTopK, length_f_classif]
  exact Nat.min_eq_left (Nat.min_le_right _ _)

/-!
Supporting lemma about error propagation.
-/

theorem noHandler_propagates (e : String) :
    ∀ l : List Op, (l.all fun op => !op.isHandler) = true →
      runErr l (.error e) = .error e := by
  intro l
  induction l with
  | nil => intro _; rfl
  | cons op rest ih =>
      intro h
      rw [List.all_cons, Bool.and_eq_true] at h
      obtain ⟨h1, h2⟩ := h
      have hstep : stepErr (.error e) op = .error e := by
        cases op <;> first
          | rfl
          | (exfalso; simp [Op.isHandler] at h1)
      show runErr (op :: rest) (.error e) = .error e
      unfold runErr at ih ⊢
      rw [List.foldl_cons, hstep]
      exact ih h2

/-!
The claim theorems.
-/

/-- C1: the classification task is reduced to binary.  After the
data-processing cell filters out label 2, every label in `y_train` and
`y_val` equals 0 or 1 (for any dataset contents and any ambient randomness),
and the classifier heads built in the notebook (the MLP's and the BiLSTM's
final Dense layer) both output exactly 2 classes with softmax. -/
theorem binary_reduction_holds (w : Nat) (c : List RawLine) :
    ((y_train w c).all fun l => l == 0 || l == 1) = true ∧
    ((y_val w c).all fun l => l == 0 || l == 1) = true ∧
    mlpLayers.getLast? = some (.dense 2 .softmax) ∧
    bilstmLayers.getLast? = some (.dense 2 .softmax) := by
  refine ⟨?_, ?_, rfl, rfl⟩
  · rw [List.all_eq_true]
    intro l hl
    rcases y_train_label hl with h | h <;> simp [h]
  · rw [List.all_eq_true]
    intro l hl
    rcases y_val_label hl with h | h <;> simp [h]

/-- C2 counterexample: the claim that every one of the eight listed signals
has an experiment cell is false; the Signal 3 (external rule-based features)
section contains only markdown and an empty code cell, so it has no
operation loading data, configuring a model, or reporting validation
accuracy. -/
theorem eight_signal_experiments_fail :
    signalHasExperimentCell Signal.externalFeatures = false := by decide

/-- C2 amended: exactly the three models of the first two signal sections
(tf-idf MLP, GloVe BiLSTM, BERT fine-tuning) have experiment cells that load
or encode the data, configure a model, and report validation accuracy;
the sections for external features, multitask learning, dataset slicing,
data augmentation, and ensembling have only empty code cells. -/
theorem three_signal_experiments_hold :
    allSignals.filter signalHasExperimentCell =
      [Signal.tfidfMLP, Signal.gloveBiLSTM, Signal.bertFineTuning] := by decide

/-- C3: all three experiments are evaluated against the same held-out
validation split.  No operation after the split cell writes `x_val` or
`y_val`; in the environment semantics, their values after the whole notebook
equal their values right after the split cell; and each experiment's encoded
validation set (`x_val_tf`, `x_val_vectorized`, `val_bert`) has the split
cell's `x_val` (and, for `val_bert`, `y_val`) among its data-flow
ancestors. -/
theorem same_validation_split_holds :
    (experimentOps.all fun op => !op.writesVar .x_val) = true ∧
    (experimentOps.all fun op => !op.writesVar .y_val) = true ∧
    envFinal .x_val = envAfterSplit .x_val ∧
    envFinal .y_val = envAfterSplit .y_val ∧
    Val.occursIn (envAfterSplit .x_val) (envFinal .x_val_tf) = true ∧
    Val.occursIn (envAfterSplit .x_val) (envFinal .x_val_vectorized) = true ∧
    Val.occursIn (envAfterSplit .x_val) (envFinal .val_bert) = true ∧
    Val.occursIn (envAfterSplit .y_val) (envFinal .val_bert) = true := by decide

/-- C4: the notebook contains no original training algorithm.  There are
exactly three `.fit` calls, one per model cell group, every `.fit` call
passes validation data, the only metric-reporting operations are those
`.fit` calls, and the notebook defines no function, class, top-level loop,
or exception handler of its own. -/
theorem no_custom_training_holds :
    (notebookOps.filter Op.isFitCall).length = 3 ∧
    (cell8.filter Op.isFitCall).length = 1 ∧
    (cell9.filter Op.isFitCall).length = 1 ∧
    ((cell11 ++ cell12).filter Op.isFitCall).length = 1 ∧
    (notebookOps.all fun op => !op.isFitCall || op.reportsValAccuracy) = true ∧
    notebookOps.filter Op.reportsMetric = notebookOps.filter Op.isFitCall ∧
    (notebookOps.all fun op => !op.isDefStmt && !op.isLoopStmt && !op.isHandler) = true := by
  decide

/-- C5: the program defines no failure handling of its own.  No operation of
the notebook is an exception handler, and consequently an error raised at any
point of the notebook propagates unchanged through every remaining operation
to the top level. -/
theorem error_propagation_holds :
    (notebookOps.all fun op => !op.isHandler) = true ∧
    ∀ fstOps sndOps : List Op, notebookOps = fstOps ++ sndOps →
      ∀ e : String, runErr sndOps (.error e) = .error e := by
  refine ⟨by decide, ?_⟩
  intro fstOps sndOps hsplit e
  apply noHandler_propagates
  have hall : (notebookOps.all fun op => !op.isHandler) = true := by decide
  rw [hsplit, List.all_append, Bool.and_eq_true] at hall
  exact hall.2

/-- C5 witness: a file-read error entering the notebook at its first
operation reaches the top level unchanged. -/
theorem error_propagation_witness :
    runErr notebookOps (.error "FileNotFoundError") = .error "FileNotFoundError" :=
  error_propagation_holds.2 [] notebookOps rfl "FileNotFoundError"

/-- C6: at load time, before the binary reduction, every label of the
dataset is one of exactly the three values 0, 1, 2, and the encoding is
1 for positive, 0 for negative, 2 for neutral. -/
theorem three_class_labels_hold (w : Nat) (c : List RawLine) :
    ((setupData w c).all fun r => r.2 == 0 || r.2 == 1 || r.2 == 2) = true ∧
    encodeLabel .positive = 1 ∧
    encodeLabel .negative = 0 ∧
    encodeLabel .neutral = 2 := by
  refine ⟨?_, rfl, rfl, rfl⟩
  rw [List.all_eq_true]
  intro r hr
  rcases setupData_label hr with h | h | h <;> simp [h]

/-- C7: the BERT experiment is fine-tuning in the Glossary's sense.  In the
BERT cells, the operations writing the model variable are, in order: the
initialization from the pretrained checkpoint `bert-base-cased` by
`from_pretrained`, the compile call, and a single `.fit` call for 2 epochs
with validation data — so the weights are pretrained first and adapted by
training afterwards, never initialized from scratch. -/
theorem bert_finetuning_holds :
    (cell11 ++ cell12).filter (fun op => op.writesVar .model) =
      [.fromPretrained .model "bert-base-cased",
       .methodCall .model .compile_model [.optimizer, .loss, .metric],
       .fitCall .model [.train_bert, .BATCH_SIZE] 2 [.val_bert]] ∧
    cell12.findIdx? (fun op => op.writesVar .model) = some 0 ∧
    cell12.findIdx? Op.isFitCall = some 5 := by decide

/-- C8: the train/validation split is a positional partition of the filtered
frame.  Rows 0 through 1299 of the shuffled, label-filtered data followed by
the remaining rows reconstitute the whole filtered frame, and at every
position the paired sentence and label of `x_train`/`y_train`
(respectively `x_val`/`y_val`) are exactly the corresponding original
row. -/
theorem split_partition_holds (w : Nat) (c : List RawLine) :
    (binaryFiltered w c).take train_split_idx ++ (binaryFiltered w c).drop train_split_idx
        = binaryFiltered w c ∧
    (x_train w c).zip (y_train w c) = (binaryFiltered w c).take train_split_idx ∧
    (x_val w c).zip (y_val w c) = (binaryFiltered w c).drop train_split_idx := by
  refine ⟨List.take_append_drop _ _, ?_, ?_⟩
  · rw [x_train, y_train, List.zip_map']
    simp
  · rw [x_val, y_val, List.zip_map']
    simp

/-- C9: the data pipeline is deterministic.  For any fixed dataset contents,
the four split outputs do not depend on the ambient random world, because the
only pseudo-random step is seeded with `random_state = 42`. -/
theorem pipeline_deterministic_holds (c : List RawLine) (w1 w2 : Nat) :
    x_train w1 c = x_train w2 c ∧
    y_train w1 c = y_train w2 c ∧
    x_val w1 c = x_val w2 c ∧
    y_val w1 c = y_val w2 c :=
  ⟨rfl, rfl, rfl, rfl⟩

set_option maxHeartbeats 2000000 in
/-- C10: feature selection never requests more features than exist.
`k = min(20000, x_train_tf.shape[1])` is at most the number of tf-idf
columns; after selection both matrices have exactly `k` columns (as their
declared shape and as the length of every row), and the MLP's declared input
dimension is the transformed validation matrix's column count. -/
theorem select_k_best_holds (w : Nat) (c : List RawLine) :
    selector_k w c ≤ (x_train_tf_raw w c).ncols ∧
    (x_train_tf w c).ncols = selector_k w c ∧
    (x_val_tf w c).ncols = selector_k w c ∧
    ((x_train_tf w c).rows.all fun row => row.length == selector_k w c) = true ∧
    ((x_val_tf w c).rows.all fun row => row.length == selector_k w c) = true ∧
    mlp_input_dim w c = (x_val_tf w c).ncols := by
  refine ⟨Nat.min_le_right _ _, ?_, ?_, ?_, ?_, rfl⟩
  · rw [x_train_tf]
    show (selector_idx w c).length = _
    exact selector_idx_length w c
  · rw [x_val_tf]
    show (selector_idx w c).length = _
    exact selector_idx_length w c
  · rw [List.all_eq_true]
    intro row hrow
    rw [x_train_tf] at hrow
    simp only [selTransform, List.mem_map] at hrow
    obtain ⟨r0, _, he⟩ := hrow
    rw [← he]
    simp [selector_idx_length]
  · rw [List.all_eq_true]
    intro row hrow
    rw [x_val_tf] at hrow
    simp only [selTransform, List.mem_map] at hrow
    obtain ⟨r0, _, he⟩ := hrow
    rw [← he]
    simp [selector_idx_length]
